import Mathlib

/-!
Verification development for the aimvise repository-analysis backend.

The definitions below are a shallow embedding of the analysis
orchestration pipeline of the source:

* `calculate_overall_scores` embeds
  `app/services/repository_analyzer.py::RepositoryAnalyzer._calculate_overall_scores`;
* `run_stages` / `analyze_repository` embed
  `RepositoryAnalyzer._run_stage` and `RepositoryAnalyzer.analyze_repository`
  (stage outcomes are supplied by an oracle `fails`, since the concrete
  analyzers are external effects);
* `update_analysis_status`, `save_final_results` embed the database writes of
  `RepositoryAnalyzer._update_analysis_status` and
  `RepositoryAnalyzer._save_final_results` restricted to the columns those
  functions write and the claims mention;
* `cancel_analysis`, `progress_stages` embed the route handlers of
  `app/api/routes/analysis.py`;
* `get_analysis_progress`, `get_analysis_result`, `list_analyses`,
  `start_record`, `svc_trace` embed the in-memory service of
  `app/services/analysis_service.py`.

Python floats are modelled as rationals (ℚ), Python dict entries that a
function reads with `.get(key, default)` as `Option` fields read with
`Option.getD default`, and a raised exception as an `Except` error value.
-/

/-- Statuses of `app/models/analysis.py::AnalysisStatus`. -/
inductive AnalysisStatus
  | pending
  | running
  | completed
  | failed
  | cancelled
deriving DecidableEq, Repr

/-- Analysis types of `app/models/analysis.py::AnalysisType`. -/
inductive AnalysisType
  | quick
  | standard
  | comprehensive
  | security_focused
  | architecture_focused
deriving DecidableEq, Repr

/-! ## Score aggregator (`RepositoryAnalyzer._calculate_overall_scores`) -/

/-- The entries of `self.results["code_quality"]` read by the aggregator.
`none` fields model keys missing from the dict (read via `.get(k, default)`). -/
structure CodeQualityData where
  avg_complexity : Option ℚ
  duplication_percentage : Option ℚ
deriving DecidableEq, Repr

/-- The entry of `self.results["security"]` read by the aggregator. -/
structure SecurityData where
  vulnerabilities_count : Option ℕ
deriving DecidableEq, Repr

/-- The entries of `self.results["architecture"]` read by the aggregator
(only the lengths of the two lists are used by the source). -/
structure ArchitectureData where
  design_patterns : Option (List String)
  violations : Option (List String)
deriving DecidableEq, Repr

/-- The entries of `self.results["dependencies"]` read by the aggregator. -/
structure DependencyData where
  outdated_count : Option ℕ
  total_count : Option ℕ
deriving DecidableEq, Repr

/-- The slice of `self.results` that `_calculate_overall_scores` reads.
A `none` stage models `self.results.get(name, {})` being absent or empty
(an empty dict is falsy, so `if code_quality:` skips it). -/
structure AnalysisResults where
  code_quality : Option CodeQualityData
  security : Option SecurityData
  architecture : Option ArchitectureData
  dependencies : Option DependencyData
deriving DecidableEq, Repr

/-- The `scores` dict built by `_calculate_overall_scores`: one optional
sub-score per stage plus the optional `"overall"` entry. -/
structure ScoresDict where
  code_quality : Option ℚ
  security : Option ℚ
  architecture : Option ℚ
  dependencies : Option ℚ
  overall : Option ℚ
deriving DecidableEq, Repr

/-- Round a rational to the nearest integer, ties to even
(the rounding mode of Python's builtin `round`). -/
def round_half_even (q : ℚ) : ℤ :=
  let f : ℤ := ⌊q⌋
  let r : ℚ := q - (f : ℚ)
  if r < 1/2 then f
  else if 1/2 < r then f + 1
  else if f % 2 = 0 then f else f + 1

/-- Python's `round(x, 2)`. -/
def round2 (q : ℚ) : ℚ := (round_half_even (q * 100) : ℚ) / 100

/-- Sub-score of the `code_quality` stage, from
`_calculate_overall_scores`: mean of a complexity score and a
duplication score, each clamped to `[1, 6]`. -/
def sub_score_code_quality (d : CodeQualityData) : ℚ :=
  let complexity_score := min 6 (max 1 (6 - (d.avg_complexity.getD 5 - 5) * (1/2)))
  let duplication_score := min 6 (max 1 (6 - d.duplication_percentage.getD 10 * (1/5)))
  (complexity_score + duplication_score) / 2

/-- Sub-score of the `security` stage: `min(6, max(1, 6 - vuln_count * 0.5))`. -/
def sub_score_security (d : SecurityData) : ℚ :=
  min 6 (max 1 (6 - (d.vulnerabilities_count.getD 0 : ℚ) * (1/2)))

/-- Sub-score of the `architecture` stage:
`min(6, max(1, 4 + 0.5 * len(patterns) - 0.3 * len(violations)))`. -/
def sub_score_architecture (d : ArchitectureData) : ℚ :=
  let patterns_score := ((d.design_patterns.getD []).length : ℚ) * (1/2)
  let violations_score := ((d.violations.getD []).length : ℚ) * (-(3/10))
  min 6 (max 1 (4 + patterns_score + violations_score))

/-- Sub-score of the `dependencies` stage:
`min(6, max(1, 6 - 4 * outdated_count / max(total_count, 1)))`. -/
def sub_score_dependencies (d : DependencyData) : ℚ :=
  let outdated_ratio := (d.outdated_count.getD 0 : ℚ) / max ((d.total_count.getD 1 : ℕ) : ℚ) 1
  min 6 (max 1 (6 - outdated_ratio * 4))

/-- `RepositoryAnalyzer._calculate_overall_scores`.  Each present stage
yields a sub-score; the `"overall"` entry is written only when the `scores`
dict is non-empty, as `round(sum(scores.get(key, 3.0) * weight), 2)` over
the fixed weights code_quality 0.3, security 0.3, architecture 0.2,
dependencies 0.2.  Absent stages contribute the default `3.0`; the weight
denominator is not re-normalized.  The Python function catches every
exception and returns a dict, so the embedding is total. -/
def calculate_overall_scores (r : AnalysisResults) : ScoresDict :=
  let cq := r.code_quality.map sub_score_code_quality
  let sec := r.security.map sub_score_security
  let arch := r.architecture.map sub_score_architecture
  let dep := r.dependencies.map sub_score_dependencies
  let overall :=
    if cq.isSome || sec.isSome || arch.isSome || dep.isSome then
      some (round2 (cq.getD 3 * (3/10) + sec.getD 3 * (3/10) +
                    arch.getD 3 * (1/5) + dep.getD 3 * (1/5)))
    else none
  ⟨cq, sec, arch, dep, overall⟩

/-- The four (optional sub-score, weight) pairs of the aggregator, in the
iteration order of the source's `weights` dict. -/
def weighted_sub_scores (r : AnalysisResults) : List (Option ℚ × ℚ) :=
  [(r.code_quality.map sub_score_code_quality, 3/10),
   (r.security.map sub_score_security, 3/10),
   (r.architecture.map sub_score_architecture, 1/5),
   (r.dependencies.map sub_score_dependencies, 1/5)]

/-- Weighted sum of the sub-scores of the stages that produced a result. -/
def available_weighted_sum (r : AnalysisResults) : ℚ :=
  ((weighted_sub_scores r).filterMap (fun p => p.1.map (fun s => s * p.2))).sum

/-- Total weight of the stages that produced a result. -/
def available_weight (r : AnalysisResults) : ℚ :=
  (((weighted_sub_scores r).filter (fun p => p.1.isSome)).map Prod.snd).sum

/-- Total weight of the absent stages. -/
def absent_weight (r : AnalysisResults) : ℚ :=
  (((weighted_sub_scores r).filter (fun p => p.1.isNone)).map Prod.snd).sum

/-- The composite as the specification words it (for comparison with the
source's `calculate_overall_scores`): the weighted sum of the available
sub-scores re-normalized over only the weights of the available stages,
failing when every stage is absent. -/
def spec_renormalized_composite (r : AnalysisResults) : Option ℚ :=
  if available_weight r = 0 then none
  else some (available_weighted_sum r / available_weight r)

/-- A results mapping in which only the security stage produced a result
(with zero vulnerabilities, hence sub-score 6). -/
def security_only_results : AnalysisResults :=
  { code_quality := none
    security := some ⟨some 0⟩
    architecture := none
    dependencies := none }

/-- The all-absent results mapping. -/
def all_absent_results : AnalysisResults :=
  ⟨none, none, none, none⟩

/-- The empty `scores` dict. -/
def empty_scores : ScoresDict :=
  ⟨none, none, none, none, none⟩

/-! ## Stage pipeline (`RepositoryAnalyzer.analyze_repository` / `_run_stage`) -/

/-- The eight stage names declared in `RepositoryAnalyzer.__init__`. -/
inductive StageName
  | clone
  | dependencies
  | code_quality
  | security
  | architecture
  | performance
  | build
  | ai_insights
deriving DecidableEq, Repr

/-- The `weight` field of each declared `AnalysisStage`
(0.05, 0.15, 0.25, 0.20, 0.15, 0.10, 0.05, 0.05 as rationals). -/
def stage_weight : StageName → ℚ
  | StageName.clone => 1/20
  | StageName.dependencies => 3/20
  | StageName.code_quality => 1/4
  | StageName.security => 1/5
  | StageName.architecture => 3/20
  | StageName.performance => 1/10
  | StageName.build => 1/20
  | StageName.ai_insights => 1/20

/-- The `name` field of each declared `AnalysisStage`. -/
def stage_name_str : StageName → String
  | StageName.clone => "clone"
  | StageName.dependencies => "dependencies"
  | StageName.code_quality => "code_quality"
  | StageName.security => "security"
  | StageName.architecture => "architecture"
  | StageName.performance => "performance"
  | StageName.build => "build"
  | StageName.ai_insights => "ai_insights"

/-- `self.stages` of `RepositoryAnalyzer.__init__`, in declaration order. -/
def pipeline_stages : List StageName :=
  [StageName.clone, StageName.dependencies, StageName.code_quality,
   StageName.security, StageName.architecture, StageName.performance,
   StageName.build, StageName.ai_insights]

/-- The progress computed in `_run_stage`:
`sum(s.weight for s in self.stages[:self.current_stage_index]) * 100`
(a positional prefix of the declared stage list, whether or not those
positions are the stages that actually ran). -/
def progress_at (idx : ℕ) : ℚ :=
  (((pipeline_stages.take idx).map stage_weight).sum) * 100

/-- The mutable per-session state threaded through the stage loop:
the keys of `self.results`, `self.current_stage_index`, and the progress
value last computed by `_run_stage`. -/
structure PipeState where
  result_keys : List String
  stage_index : ℕ
  progress : ℚ
deriving DecidableEq, Repr

/-- The `store_key` passed to `_run_stage` for each stage (the clone stage
stores no result; every other stage stores under its own name).  Successful
analyzer results are modelled as truthy, so `if store_key and result:`
stores them. -/
def store_keys : StageName → List String
  | StageName.clone => []
  | s => [stage_name_str s]

/-- The state change of one successful `_run_stage` call: store the result,
increment `current_stage_index`, recompute the progress. -/
def step_stage (s : StageName) (st : PipeState) : PipeState :=
  ⟨st.result_keys ++ store_keys s, st.stage_index + 1, progress_at (st.stage_index + 1)⟩

/-- Run a list of stages in order via `_run_stage`.  The oracle `fails`
says whether a stage's analyzer raises; `_run_stage` catches, logs and
**re-raises**, so the first failing stage aborts the whole loop with the
state reached so far (modelled as the `Except` error payload). -/
def run_stages (fails : StageName → Bool) :
    List StageName → PipeState → Except (StageName × PipeState) PipeState
  | [], st => Except.ok st
  | s :: rest, st =>
    if fails s then Except.error (s, st)
    else run_stages fails rest (step_stage s st)

/-- The stage-selection flags of `analysis_config`
(built in `app/api/routes/analysis.py::start_analysis`). -/
structure AnalysisConfig where
  include_security : Bool
  include_architecture : Bool
  include_dependencies : Bool
  include_performance : Bool
deriving DecidableEq, Repr

/-- The stages `analyze_repository` runs after the clone stage, in source
order: dependencies always; code_quality for STANDARD/COMPREHENSIVE;
security, architecture per config flag; performance only for COMPREHENSIVE
with the flag; build and ai_insights always. -/
def post_clone_stages (t : AnalysisType) (cfg : AnalysisConfig) : List StageName :=
  [StageName.dependencies]
  ++ (if t = AnalysisType.standard ∨ t = AnalysisType.comprehensive
      then [StageName.code_quality] else [])
  ++ (if cfg.include_security then [StageName.security] else [])
  ++ (if cfg.include_architecture then [StageName.architecture] else [])
  ++ (if cfg.include_performance ∧ t = AnalysisType.comprehensive
      then [StageName.performance] else [])
  ++ [StageName.build, StageName.ai_insights]

/-- The observable outcome of one `analyze_repository` call: the final
session status, the keys of `self.results`, the error string (when the
body raised), how many times the `finally` block ran `_cleanup`, and the
progress value last computed by `_run_stage`. -/
structure PipelineOutcome where
  status : AnalysisStatus
  result_keys : List String
  error_log : Option String
  cleanup_count : ℕ
  final_progress : ℚ
deriving DecidableEq, Repr

/-- `RepositoryAnalyzer.analyze_repository`: run the clone stage, store
`"metadata"`, run the remaining stages, store `"scores"` and
`"recommendations"`, save (which may itself raise, per `save_fails`), and
set COMPLETED; any raise is caught, the session is set FAILED with the
error logged, and the `finally` block performs the cleanup exactly once on
either path. -/
def analyze_repository (t : AnalysisType) (cfg : AnalysisConfig)
    (fails : StageName → Bool) (save_fails : Bool) : PipelineOutcome :=
  let st0 : PipeState := ⟨[], 0, 0⟩
  if fails StageName.clone then
    ⟨AnalysisStatus.failed, st0.result_keys, some (stage_name_str StageName.clone),
     1, st0.progress⟩
  else
    let st1 := step_stage StageName.clone st0
    let st1m : PipeState := ⟨st1.result_keys ++ ["metadata"], st1.stage_index, st1.progress⟩
    match run_stages fails (post_clone_stages t cfg) st1m with
    | Except.error (s, stE) =>
        ⟨AnalysisStatus.failed, stE.result_keys, some (stage_name_str s), 1, stE.progress⟩
    | Except.ok st2 =>
        let st3 : PipeState :=
          ⟨st2.result_keys ++ ["scores", "recommendations"], st2.stage_index, st2.progress⟩
        if save_fails then
          ⟨AnalysisStatus.failed, st3.result_keys, some "save_final_results", 1, st3.progress⟩
        else
          ⟨AnalysisStatus.completed, st3.result_keys, none, 1, st3.progress⟩

/-- The result keys reached by a (possibly aborted) stage run. -/
def keys_of : Except (StageName × PipeState) PipeState → List String
  | Except.ok st => st.result_keys
  | Except.error p => p.2.result_keys

/-- The config with every `include_*` flag true (the request defaults). -/
def all_on_config : AnalysisConfig := ⟨true, true, true, true⟩

/-- An oracle under which exactly the security stage's analyzer raises. -/
def security_fails_oracle : StageName → Bool :=
  fun s => decide (s = StageName.security)

/-! ## Database session record (`_update_analysis_status`, `_save_final_results`,
route `cancel_analysis`) -/

/-- The columns of `RepositoryAnalysis` written by `_update_analysis_status`
and the score columns written by `_save_final_results`.  Timestamps are
naturals. -/
structure DbAnalysis where
  status : AnalysisStatus
  started_at : Option ℕ
  completed_at : Option ℕ
  analysis_duration_seconds : Option ℤ
  error_log : Option String
  overall_quality_score : Option ℚ
  maintainability_score : Option ℚ
  security_score : Option ℚ
deriving DecidableEq, Repr

/-- `RepositoryAnalyzer._update_analysis_status`: sets `status`
unconditionally (no check of the current status), and the optional
timestamp/error columns when supplied; the duration is derived when a
completion time arrives and a start time is recorded. -/
def update_analysis_status (a : DbAnalysis) (status : AnalysisStatus)
    (started_at : Option ℕ) (completed_at : Option ℕ)
    (error_log : Option String) : DbAnalysis :=
  let a1 := { a with status := status }
  let a2 := match started_at with
    | some t => { a1 with started_at := some t }
    | none => a1
  let a3 := match completed_at with
    | some t =>
      let aC := { a2 with completed_at := some t }
      match aC.started_at with
      | some t0 => { aC with analysis_duration_seconds := some ((t : ℤ) - (t0 : ℤ)) }
      | none => aC
    | none => a2
  match error_log with
  | some e => { a3 with error_log := some e }
  | none => a3

/-- `RepositoryAnalyzer._save_final_results`, restricted to the score
columns: writes the aggregated scores into the record unconditionally. -/
def save_final_results (a : DbAnalysis) (scores : ScoresDict) : DbAnalysis :=
  { a with
    overall_quality_score := scores.overall
    maintainability_score := scores.code_quality
    security_score := scores.security }

/-- The outcomes of the DELETE route `cancel_analysis`. -/
inductive CancelResult
  | notFound
  | conflictTerminal
  | success
deriving DecidableEq, Repr

/-- Route `cancel_analysis` of `app/api/routes/analysis.py`: 404 when the
record is missing, 409 when the status is COMPLETED or FAILED (CANCELLED is
**not** refused), otherwise set CANCELLED and report success. -/
def cancel_analysis : Option DbAnalysis → CancelResult × Option DbAnalysis
  | none => (CancelResult.notFound, none)
  | some a =>
    if a.status = AnalysisStatus.completed ∨ a.status = AnalysisStatus.failed then
      (CancelResult.conflictTerminal, some a)
    else
      (CancelResult.success, some { a with status := AnalysisStatus.cancelled })

/-- A cancelled session record. -/
def cancelled_analysis : DbAnalysis :=
  ⟨AnalysisStatus.cancelled, some 0, none, none, none, none, none, none⟩

/-- The `(progress_percentage, current_stage)` table of the GET progress
route, a pure function of the stored status. -/
def progress_stages : AnalysisStatus → ℕ × String
  | AnalysisStatus.pending => (0, "Queued for processing")
  | AnalysisStatus.running => (50, "Analyzing repository")
  | AnalysisStatus.completed => (100, "Analysis completed")
  | AnalysisStatus.failed => (0, "Analysis failed")
  | AnalysisStatus.cancelled => (0, "Analysis cancelled")

/-! ## In-memory analysis service (`app/services/analysis_service.py`) -/

/-- The status strings used by `AnalysisService` (`init` models the string
"initializing"; the service never uses a cancelled status). -/
inductive SvcStatus
  | init
  | running
  | completed
  | failed
deriving DecidableEq, Repr

/-- One record of `self.active_analyses`.  `results` is the stored results
payload, kept opaque as key/value pairs. -/
structure SvcAnalysis where
  id : String
  repository_url : String
  analysis_type : String
  status : SvcStatus
  progress : ℕ
  current_stage : String
  started_at : String
  github_token : Option String
  results : List (String × String)
  error : Option String
deriving DecidableEq, Repr

/-- The record created by `start_comprehensive_analysis`: the supplied
github token is stored in the record. -/
def start_record (analysis_id repository_url analysis_type : String)
    (github_token : Option String) (now : String) : SvcAnalysis :=
  { id := analysis_id
    repository_url := repository_url
    analysis_type := analysis_type
    status := SvcStatus.init
    progress := 0
    current_stage := "Initializing analysis..."
    started_at := now
    github_token := github_token
    results := []
    error := none }

/-- The response of `AnalysisService.get_analysis_progress`: exactly the
six fields the source copies out of the record (the github token is not
among them). -/
structure ProgressResponse where
  analysis_id : String
  status : SvcStatus
  progress_percentage : ℕ
  current_stage : String
  started_at : String
  repository_url : String
deriving DecidableEq, Repr

/-- `AnalysisService.get_analysis_progress` (`none` models the not-found
error payload). -/
def get_analysis_progress : Option SvcAnalysis → Option ProgressResponse
  | none => none
  | some a => some ⟨a.id, a.status, a.progress, a.current_stage, a.started_at, a.repository_url⟩

/-- The responses of `AnalysisService.get_analysis_result`. -/
inductive ResultResponse
  | notFound
  | notCompleted (status : SvcStatus) (progress : ℕ)
  | payload (results : List (String × String))
deriving DecidableEq, Repr

/-- `AnalysisService.get_analysis_result`: not-found when the id is
unknown; when the status is not `"completed"` (including `"failed"`) an
"Analysis not completed yet" error carrying only the status and progress;
the stored results only on a completed record. -/
def get_analysis_result : Option SvcAnalysis → ResultResponse
  | none => ResultResponse.notFound
  | some a =>
    if a.status = SvcStatus.completed then ResultResponse.payload a.results
    else ResultResponse.notCompleted a.status a.progress

/-- One entry of the `list_analyses` response: exactly the six fields the
source copies out of each record (the github token is not among them). -/
structure ListEntry where
  id : String
  repository_url : String
  status : SvcStatus
  progress : ℕ
  started_at : String
  analysis_type : String
deriving DecidableEq, Repr

/-- The `list_analyses` entry built from one record. -/
def list_entry (a : SvcAnalysis) : ListEntry :=
  ⟨a.id, a.repository_url, a.status, a.progress, a.started_at, a.analysis_type⟩

/-- `AnalysisService.list_analyses` over the stored records. -/
def list_analyses (store : List SvcAnalysis) : List ListEntry :=
  store.map list_entry

/-- The awaited steps of `_run_comprehensive_analysis` that can raise
(cloning, file analysis, static analysis, the AI call); the later progress
assignments are straight-line code and cannot fail. -/
inductive SvcFailPoint
  | cloneStep
  | fileStep
  | staticStep
  | aiStep
deriving DecidableEq, Repr

/-- The committed `(status, progress)` snapshots of one
`_run_comprehensive_analysis` run, in assignment order: the record starts
at (initializing, 0); progress is set to 10 and then status to running;
progress then rises 25, 40, 55, 70, 80, 90, 95, 100; status becomes
completed at the end, or failed after the given failing step with the
progress left at its last value. -/
def svc_trace : Option SvcFailPoint → List (SvcStatus × ℕ)
  | some SvcFailPoint.cloneStep =>
      [(SvcStatus.init, 0), (SvcStatus.init, 10), (SvcStatus.running, 10),
       (SvcStatus.failed, 10)]
  | some SvcFailPoint.fileStep =>
      [(SvcStatus.init, 0), (SvcStatus.init, 10), (SvcStatus.running, 10),
       (SvcStatus.running, 25), (SvcStatus.failed, 25)]
  | some SvcFailPoint.staticStep =>
      [(SvcStatus.init, 0), (SvcStatus.init, 10), (SvcStatus.running, 10),
       (SvcStatus.running, 25), (SvcStatus.running, 40), (SvcStatus.failed, 40)]
  | some SvcFailPoint.aiStep =>
      [(SvcStatus.init, 0), (SvcStatus.init, 10), (SvcStatus.running, 10),
       (SvcStatus.running, 25), (SvcStatus.running, 40), (SvcStatus.running, 55),
       (SvcStatus.failed, 55)]
  | none =>
      [(SvcStatus.init, 0), (SvcStatus.init, 10), (SvcStatus.running, 10),
       (SvcStatus.running, 25), (SvcStatus.running, 40), (SvcStatus.running, 55),
       (SvcStatus.running, 70), (SvcStatus.running, 80), (SvcStatus.running, 90),
       (SvcStatus.running, 95), (SvcStatus.running, 100), (SvcStatus.completed, 100)]

/-- The progress values of one run's snapshots. -/
def svc_progress_values (fp : Option SvcFailPoint) : List ℕ :=
  (svc_trace fp).map Prod.snd

/-- A failed service record (the AI step raised at progress 55). -/
def failed_record : SvcAnalysis :=
  { id := "a1"
    repository_url := "https://example.com/repo.git"
    analysis_type := "comprehensive"
    status := SvcStatus.failed
    progress := 55
    current_stage := "AI performing comprehensive analysis..."
    started_at := "2026-01-01T00:00:00"
    github_token := none
    results := [("error", "clone failed"), ("status", "failed")]
    error := some "clone failed" }

/-- A running record that carries a github token. -/
def record_with_token : SvcAnalysis :=
  { id := "a2"
    repository_url := "https://example.com/other.git"
    analysis_type := "standard"
    status := SvcStatus.running
    progress := 40
    current_stage := "Running static analysis tools..."
    started_at := "2026-01-01T00:00:00"
    github_token := some "ghp_secret_token"
    results := []
    error := none }

/-- The same record with the token removed. -/
def record_without_token : SvcAnalysis :=
  { record_with_token with github_token := none }

/-! ## Theorems -/

/-- C1: the claim as stated is false on the code.  For the results mapping
in which only the security stage produced a sub-score (6, for zero
vulnerabilities) and the other three stages are absent, the re-normalized
composite the claim describes would be 6, but `calculate_overall_scores`
substitutes the default sub-score 3.0 for each absent stage over the full
weight base and returns 3.9. -/
theorem C1_counterexample :
    (calculate_overall_scores security_only_results).overall = some (39/10) ∧
    spec_renormalized_composite security_only_results = some 6 ∧
    ((39 : ℚ)/10) ≠ 6 := by
  refine ⟨?_, ?_, by norm_num⟩
  · norm_num [calculate_overall_scores, security_only_results, sub_score_security,
      round2, round_half_even]
  · norm_num [spec_renormalized_composite, available_weight, available_weighted_sum,
      weighted_sub_scores, security_only_results, sub_score_security,
      List.filterMap_cons]

/-- C1 (amended): for every results mapping in which at least one stage
produced a sub-score, the composite written by `calculate_overall_scores`
is the weighted sum in which each available stage contributes its sub-score
and each absent stage contributes the default sub-score 3.0, over the full
weight base (no re-normalization), rounded to two decimals. -/
theorem C1_amended_defaulted_weighted_sum (r : AnalysisResults)
    (h : (r.code_quality.isSome || r.security.isSome ||
          r.architecture.isSome || r.dependencies.isSome) = true) :
    (calculate_overall_scores r).overall =
      some (round2 (available_weighted_sum r + 3 * absent_weight r)) := by
  obtain ⟨cq, sec, arch, dep⟩ := r
  rcases cq with _ | a <;> rcases sec with _ | b <;> rcases arch with _ | c <;>
    rcases dep with _ | d <;>
    simp_all [calculate_overall_scores, available_weighted_sum, absent_weight,
      weighted_sub_scores, List.filterMap_cons] <;>
    congr 1 <;> ring

/-- Witness for C1 (amended) at the security-only mapping. -/
theorem C1_amended_witness :
    (calculate_overall_scores security_only_results).overall =
      some (round2 (available_weighted_sum security_only_results +
                    3 * absent_weight security_only_results)) :=
  C1_amended_defaulted_weighted_sum security_only_results rfl

/-- C2: the claim as stated is false on the code.  On the all-absent
results mapping, `calculate_overall_scores` returns the empty score set
(no overall entry) instead of failing with an aggregation error; the
source catches every exception internally, so the function is total and
has no failure channel at all. -/
theorem C2_counterexample :
    calculate_overall_scores all_absent_results = empty_scores ∧
    (calculate_overall_scores all_absent_results).overall = none := by
  constructor <;>
    simp [calculate_overall_scores, all_absent_results, empty_scores]

/-- C2 (amended): for every results mapping in which every stage is
absent, the aggregator returns the empty score set (every sub-score and
the overall entry missing) and signals no error. -/
theorem C2_amended_all_absent_empty (r : AnalysisResults)
    (h1 : r.code_quality = none) (h2 : r.security = none)
    (h3 : r.architecture = none) (h4 : r.dependencies = none) :
    calculate_overall_scores r = empty_scores := by
  obtain ⟨cq, sec, arch, dep⟩ := r
  cases h1; cases h2; cases h3; cases h4
  simp [calculate_overall_scores, empty_scores]

/-- Witness for C2 (amended) at the all-absent mapping. -/
theorem C2_amended_witness :
    calculate_overall_scores all_absent_results = empty_scores :=
  C2_amended_all_absent_empty all_absent_results rfl rfl rfl rfl

/-- A stage name string belongs to a stage's `store_keys` only for that
stage itself. -/
theorem mem_store_keys (s a : StageName) (h : stage_name_str s ∈ store_keys a) :
    a = s := by
  revert h
  cases s <;> cases a <;> decide

/-- If some stage in the list has a raising analyzer, `run_stages` aborts
with an error. -/
theorem run_stages_error_of_mem (fails : StageName → Bool) (s : StageName)
    (hf : fails s = true) :
    ∀ (stages : List StageName) (st : PipeState), s ∈ stages →
      ∃ p, run_stages fails stages st = Except.error p := by
  intro stages
  induction stages with
  | nil => intro st h; cases h
  | cons a rest ih =>
    intro st h
    by_cases ha : fails a = true
    · exact ⟨(a, st), by simp [run_stages, ha]⟩
    · have hne : s ≠ a := fun he => ha (he ▸ hf)
      have hs : s ∈ rest := by
        rcases List.mem_cons.mp h with h1 | h2
        · exact absurd h1 hne
        · exact h2
      obtain ⟨p, hp⟩ := ih (step_stage a st) hs
      exact ⟨p, by simp [run_stages, ha, hp]⟩

/-- A key that only failing stages would store is never added to the
results by `run_stages` (failing stages abort before storing). -/
theorem run_stages_key_not_added (fails : StageName → Bool) (k : String)
    (hk : ∀ a : StageName, k ∈ store_keys a → fails a = true) :
    ∀ (stages : List StageName) (st : PipeState),
      k ∉ st.result_keys → k ∉ keys_of (run_stages fails stages st) := by
  intro stages
  induction stages with
  | nil => intro st h; simpa [run_stages, keys_of] using h
  | cons a rest ih =>
    intro st h
    by_cases ha : fails a = true
    · simpa [run_stages, ha, keys_of] using h
    · have hstep : k ∉ (step_stage a st).result_keys := by
        simp only [step_stage, List.mem_append]
        rintro (h1 | h2)
        · exact h h1
        · exact ha (hk a h2)
      simpa [run_stages, ha] using ih (step_stage a st) hstep

/-- C3: the claim as stated is false on the code.  With every stage
enabled and only the security analyzer raising, the session becomes FAILED
(error "security"), only the results of the stages before the failure are
recorded, no absent/error marker is stored for the security stage, and the
remaining stages never run — there is no graceful degradation for any
stage, because `_run_stage` re-raises every failure. -/
theorem C3_counterexample :
    (analyze_repository AnalysisType.comprehensive all_on_config security_fails_oracle false).status
      = AnalysisStatus.failed ∧
    (analyze_repository AnalysisType.comprehensive all_on_config security_fails_oracle false).result_keys
      = ["metadata", "dependencies", "code_quality"] ∧
    (analyze_repository AnalysisType.comprehensive all_on_config security_fails_oracle false).error_log
      = some "security" := by
  refine ⟨?_, ?_, ?_⟩ <;> decide

/-- C3 (amended): every stage is effectively required.  For every stage
scheduled by the pipeline, if that stage's analyzer raises then the session
becomes FAILED with the error recorded, no absent/error marker is stored in
the results for the failed stage, and aggregation (the `"scores"` entry) is
never reached. -/
theorem C3_amended_stage_failure_is_fatal (t : AnalysisType) (cfg : AnalysisConfig)
    (fails : StageName → Bool) (sf : Bool) (s : StageName)
    (hmem : s ∈ StageName.clone :: post_clone_stages t cfg) (hf : fails s = true) :
    (analyze_repository t cfg fails sf).status = AnalysisStatus.failed ∧
    stage_name_str s ∉ (analyze_repository t cfg fails sf).result_keys ∧
    "scores" ∉ (analyze_repository t cfg fails sf).result_keys := by
  by_cases hc : fails StageName.clone = true
  · simp [analyze_repository, hc]
  · have hs : s ∈ post_clone_stages t cfg := by
      rcases List.mem_cons.mp hmem with h1 | h2
      · exact absurd (h1 ▸ hf) hc
      · exact h2
    obtain ⟨p, hp⟩ := run_stages_error_of_mem fails s hf (post_clone_stages t cfg)
      ⟨["metadata"], 1, progress_at 1⟩ hs
    have hk1 : stage_name_str s ∉
        keys_of (run_stages fails (post_clone_stages t cfg) ⟨["metadata"], 1, progress_at 1⟩) := by
      apply run_stages_key_not_added fails (stage_name_str s)
      · intro a ha
        exact (mem_store_keys s a ha) ▸ hf
      · intro hmm
        rcases List.mem_singleton.mp hmm with h
        revert h
        cases s <;> decide
    have hk2 : "scores" ∉
        keys_of (run_stages fails (post_clone_stages t cfg) ⟨["metadata"], 1, progress_at 1⟩) := by
      apply run_stages_key_not_added fails "scores"
      · intro a ha
        exact absurd ha (by cases a <;> decide)
      · decide
    obtain ⟨sE, stE⟩ := p
    rw [hp] at hk1 hk2
    simp only [keys_of] at hk1 hk2
    simp only [analyze_repository, step_stage, store_keys, List.nil_append,
      List.append_nil, Nat.zero_add, hc, if_false, Bool.false_eq_true]
    rw [hp]
    simp [hk1, hk2]

/-- Witness for C3 (amended): the comprehensive run whose security
analyzer raises. -/
theorem C3_amended_witness :
    (analyze_repository AnalysisType.comprehensive all_on_config security_fails_oracle true).status
      = AnalysisStatus.failed ∧
    stage_name_str StageName.security ∉
      (analyze_repository AnalysisType.comprehensive all_on_config security_fails_oracle true).result_keys ∧
    "scores" ∉
      (analyze_repository AnalysisType.comprehensive all_on_config security_fails_oracle true).result_keys :=
  C3_amended_stage_failure_is_fatal AnalysisType.comprehensive all_on_config
    security_fails_oracle true StageName.security (by decide) (by decide)

/-- C4: confirmed.  Every committed `(status, progress)` sequence of
`_run_comprehensive_analysis` — for a successful run and for a failure at
each awaited step — has non-decreasing progress bounded by 100, every poll
sequence (a sublist of the committed snapshots) is therefore
non-decreasing as well, and the progress table of the GET progress route
stays within [0, 100] and is non-decreasing over the non-terminal statuses
PENDING and RUNNING. -/
theorem C4_progress_monotone_bounded :
    (∀ fp : Option SvcFailPoint,
       List.Chain' (fun a b => a ≤ b) (svc_progress_values fp) ∧
       ∀ p ∈ svc_progress_values fp, p ≤ 100) ∧
    (∀ (fp : Option SvcFailPoint) (polls : List ℕ),
       polls.Sublist (svc_progress_values fp) →
       List.Chain' (fun a b => a ≤ b) polls) ∧
    (∀ st : AnalysisStatus, (progress_stages st).1 ≤ 100) ∧
    (progress_stages AnalysisStatus.pending).1 ≤ (progress_stages AnalysisStatus.running).1 := by
  have hmain : ∀ fp : Option SvcFailPoint,
      List.Chain' (fun a b => a ≤ b) (svc_progress_values fp) := by
    intro fp
    rcases fp with _ | f
    · simp [svc_progress_values, svc_trace, List.chain'_cons]
    · cases f <;> simp [svc_progress_values, svc_trace, List.chain'_cons]
  refine ⟨fun fp => ⟨hmain fp, ?_⟩, fun fp polls h => (hmain fp).sublist h,
    fun st => ?_, by decide⟩
  · rcases fp with _ | f
    · decide
    · cases f <;> decide
  · cases st <;> decide

/-- Witness for C4 at a concrete poll sequence of the successful run. -/
theorem C4_progress_witness :
    List.Chain' (fun a b => a ≤ b) [0, 25, 100] :=
  C4_progress_monotone_bounded.2.1 none [0, 25, 100] (by decide)

/-- C5: confirmed.  The eight declared stage weights sum to 1, and a
session of COMPREHENSIVE type with every stage enabled in which every
stage succeeds (and saving succeeds) ends COMPLETED with the `_run_stage`
progress at exactly 100. -/
theorem C5_weights_sum_and_full_progress :
    ((pipeline_stages.map stage_weight).sum = 1) ∧
    ∀ fails : StageName → Bool, (∀ s, fails s = false) →
      (analyze_repository AnalysisType.comprehensive all_on_config fails false).status
          = AnalysisStatus.completed ∧
      (analyze_repository AnalysisType.comprehensive all_on_config fails false).final_progress
          = 100 := by
  constructor
  · norm_num [pipeline_stages, stage_weight]
  · intro fails h
    have hf : fails = fun _ => false := funext h
    subst hf
    constructor
    · decide
    · norm_num [analyze_repository, post_clone_stages, all_on_config, run_stages,
        step_stage, store_keys, progress_at, pipeline_stages, stage_weight]

/-- Witness for C5 at the all-succeeding oracle. -/
theorem C5_full_progress_witness :
    (analyze_repository AnalysisType.comprehensive all_on_config (fun _ => false) false).status
        = AnalysisStatus.completed ∧
    (analyze_repository AnalysisType.comprehensive all_on_config (fun _ => false) false).final_progress
        = 100 :=
  C5_weights_sum_and_full_progress.2 (fun _ => false) (fun _ => rfl)

/-- C6: the claim as stated is false on the code.  A session already
CANCELLED is set to COMPLETED with its composite score written when the
background pipeline finishes, because `_save_final_results` and
`_update_analysis_status` write unconditionally, with no check of the
current (terminal) status. -/
theorem C6_counterexample :
    (update_analysis_status
        (save_final_results cancelled_analysis (calculate_overall_scores security_only_results))
        AnalysisStatus.completed none (some 7) none).status = AnalysisStatus.completed ∧
    (update_analysis_status
        (save_final_results cancelled_analysis (calculate_overall_scores security_only_results))
        AnalysisStatus.completed none (some 7) none).overall_quality_score = some (39/10) := by
  constructor
  · decide
  · norm_num [update_analysis_status, save_final_results, cancelled_analysis,
      calculate_overall_scores, security_only_results, sub_score_security,
      round2, round_half_even]

/-- C6 (amended): cancellation sets CANCELLED immediately, but the running
pipeline never observes it: for every record in CANCELLED status, the final
writes of a successfully finishing pipeline overwrite the status to
COMPLETED and store the composite score — terminal statuses are not
protected from further mutation. -/
theorem C6_amended_terminal_overwritten (a : DbAnalysis) (scores : ScoresDict) (t : ℕ)
    (h : a.status = AnalysisStatus.cancelled) :
    (update_analysis_status (save_final_results a scores)
        AnalysisStatus.completed none (some t) none).status = AnalysisStatus.completed ∧
    (update_analysis_status (save_final_results a scores)
        AnalysisStatus.completed none (some t) none).overall_quality_score = scores.overall := by
  obtain ⟨st, sa, ca, du, el, oq, ms, ss⟩ := a
  cases sa <;> simp [update_analysis_status, save_final_results]

/-- Witness for C6 (amended) at a concrete cancelled record. -/
theorem C6_amended_witness :
    (update_analysis_status (save_final_results cancelled_analysis empty_scores)
        AnalysisStatus.completed none (some 7) none).status = AnalysisStatus.completed ∧
    (update_analysis_status (save_final_results cancelled_analysis empty_scores)
        AnalysisStatus.completed none (some 7) none).overall_quality_score = empty_scores.overall :=
  C6_amended_terminal_overwritten cancelled_analysis empty_scores 7 rfl

/-- C7: the claim as stated is false on the code.  On a FAILED record that
holds stored results and an error, `get_analysis_result` returns the bare
"Analysis not completed yet" response carrying only the status and
progress — not the stored results, and not the error detail. -/
theorem C7_counterexample :
    get_analysis_result (some failed_record) = ResultResponse.notCompleted SvcStatus.failed 55 ∧
    get_analysis_result (some failed_record) ≠ ResultResponse.payload failed_record.results := by
  constructor <;> decide

/-- C7 (amended): for every FAILED record, `get_analysis_result` returns
the not-completed error response with only the status and progress; the
record's partial results are not included. -/
theorem C7_amended_failed_returns_not_completed (a : SvcAnalysis)
    (h : a.status = SvcStatus.failed) :
    get_analysis_result (some a) = ResultResponse.notCompleted SvcStatus.failed a.progress := by
  simp [get_analysis_result, h]

/-- Witness for C7 (amended) at the concrete failed record. -/
theorem C7_amended_witness :
    get_analysis_result (some failed_record)
      = ResultResponse.notCompleted SvcStatus.failed failed_record.progress :=
  C7_amended_failed_returns_not_completed failed_record rfl

/-- C8: confirmed.  For every stage-failure oracle, every save outcome and
every configuration, `analyze_repository` runs its `finally` cleanup
exactly once, and the session ends in a terminal status (COMPLETED or
FAILED) on that same path — success, fatal stage failure, or failure of the
final save all reach the single cleanup. -/
theorem C8_cleanup_exactly_once (t : AnalysisType) (cfg : AnalysisConfig)
    (fails : StageName → Bool) (save_fails : Bool) :
    (analyze_repository t cfg fails save_fails).cleanup_count = 1 ∧
    ((analyze_repository t cfg fails save_fails).status = AnalysisStatus.completed ∨
     (analyze_repository t cfg fails save_fails).status = AnalysisStatus.failed) := by
  by_cases hc : fails StageName.clone = true
  · simp [analyze_repository, hc]
  · simp only [analyze_repository, hc, Bool.false_eq_true, if_false]
    cases hr : run_stages fails (post_clone_stages t cfg)
        ⟨(step_stage StageName.clone ⟨[], 0, 0⟩).result_keys ++ ["metadata"],
         (step_stage StageName.clone ⟨[], 0, 0⟩).stage_index,
         (step_stage StageName.clone ⟨[], 0, 0⟩).progress⟩ with
    | error p => obtain ⟨sE, stE⟩ := p; simp [hr]
    | ok st2 => cases save_fails <;> simp [hr]

/-- C9: the claim as stated is false on the code.  CANCELLED is a terminal
status, yet the cancel route reports success on a CANCELLED record instead
of the AlreadyTerminal conflict — only COMPLETED and FAILED are refused. -/
theorem C9_counterexample :
    (cancel_analysis (some cancelled_analysis)).1 = CancelResult.success := by decide

/-- C9 (amended): the cancel route returns AlreadyTerminal (409) exactly
for COMPLETED and FAILED records, leaving them unchanged; for every other
existing record — PENDING, RUNNING, and also the already-terminal
CANCELLED — it returns Success and the stored status becomes (or stays)
CANCELLED; a missing id yields NotFound. -/
theorem C9_amended_cancel_behaviour (a : DbAnalysis) :
    ((a.status = AnalysisStatus.completed ∨ a.status = AnalysisStatus.failed) →
      cancel_analysis (some a) = (CancelResult.conflictTerminal, some a)) ∧
    (a.status ≠ AnalysisStatus.completed → a.status ≠ AnalysisStatus.failed →
      (cancel_analysis (some a)).1 = CancelResult.success ∧
      (cancel_analysis (some a)).2 = some { a with status := AnalysisStatus.cancelled }) ∧
    (cancel_analysis none).1 = CancelResult.notFound := by
  refine ⟨fun h => ?_, fun h1 h2 => ?_, rfl⟩
  · simp [cancel_analysis, h]
  · constructor <;> simp [cancel_analysis, h1, h2]

/-- Witness for C9 (amended) at the concrete cancelled record. -/
theorem C9_amended_witness :
    (cancel_analysis (some cancelled_analysis)).1 = CancelResult.success ∧
    (cancel_analysis (some cancelled_analysis)).2
      = some { cancelled_analysis with status := AnalysisStatus.cancelled } :=
  (C9_amended_cancel_behaviour cancelled_analysis).2.1 (by decide) (by decide)

/-- C10: confirmed.  The github token supplied at creation is stored in
the in-memory record, and two records that agree on every field except the
token produce identical progress responses and identical list entries —
neither view reads the token. -/
theorem C10_token_confidentiality (a₁ a₂ : SvcAnalysis)
    (h1 : a₁.id = a₂.id) (h2 : a₁.repository_url = a₂.repository_url)
    (h3 : a₁.analysis_type = a₂.analysis_type) (h4 : a₁.status = a₂.status)
    (h5 : a₁.progress = a₂.progress) (h6 : a₁.current_stage = a₂.current_stage)
    (h7 : a₁.started_at = a₂.started_at) (_h8 : a₁.results = a₂.results)
    (_h9 : a₁.error = a₂.error) :
    get_analysis_progress (some a₁) = get_analysis_progress (some a₂) ∧
    list_entry a₁ = list_entry a₂ ∧
    (∀ tok, (start_record a₁.id a₁.repository_url a₁.analysis_type tok a₁.started_at).github_token
        = tok) := by
  refine ⟨?_, ?_, fun tok => rfl⟩ <;>
    simp [get_analysis_progress, list_entry, h1, h2, h3, h4, h5, h6, h7]

/-- Witness for C10 at two records differing only in the token. -/
theorem C10_token_witness :
    get_analysis_progress (some record_with_token)
        = get_analysis_progress (some record_without_token) ∧
    list_entry record_with_token = list_entry record_without_token :=
  ⟨(C10_token_confidentiality record_with_token record_without_token
      rfl rfl rfl rfl rfl rfl rfl rfl rfl).1,
   (C10_token_confidentiality record_with_token record_without_token
      rfl rfl rfl rfl rfl rfl rfl rfl rfl).2.1⟩
